import Mathlib

/-!
Shallow embedding of `benchmark.py` from the Humanizer repository.

The script is a latency benchmark for an HTTP text-transformation service.
Network interaction is modelled by passing the outcome of each HTTP call as
an explicit value of an inductive outcome type; elapsed wall-clock times are
modelled as rationals.  The requests the script issues are captured as
explicit trace values so that claims about their shape can be stated.
-/

namespace Humanizer

/-- A service-reported statistics mapping (`data["statistics"]` in the
script): an association list of statistic names to integer values. -/
abbrev Stats := List (String × Int)

/-- A successfully JSON-parsed response body of the `/humanize` endpoint.
`statistics` is `none` when the parsed object has no `"statistics"` key
(in which case `data.get("statistics", {})` yields the empty mapping). -/
structure RespBody where
  statistics : Option Stats
deriving Repr, DecidableEq

/-- Outcome of one `requests.post` call to `/humanize`, as observed by the
script.  A `response` carries the HTTP status code, the result of JSON
parsing of the body (`none` when `response.json()` would raise), and the
measured wall-clock elapsed time of the round trip. -/
inductive HttpResult where
  | response (status : Nat) (jsonBody : Option RespBody) (elapsed : ℚ)
  | timeout
  | transportError
deriving Repr, DecidableEq

/-- Outcome of the `requests.get` health-check call in `check_server`:
a response with some status code, a connection error, or a timeout. -/
inductive HealthResult where
  | response (status : Nat)
  | connectionError
  | timeout
deriving Repr, DecidableEq

/-- The GET request issued by `check_server` (its URL and timeout). -/
structure HealthRequest where
  url : String
  timeout : ℚ
deriving Repr, DecidableEq

/-- `HumanizerBenchmark.check_server` (benchmark.py lines 35-41):
issues `GET {base_url}/health` with a 5-second timeout and returns
`response.status_code == 200`; `ConnectionError` and `Timeout` are caught
and yield `False`.  The issued request is returned alongside the boolean. -/
def check_server (base_url : String) (r : HealthResult) : HealthRequest × Bool :=
  let req : HealthRequest := { url := base_url ++ "/health", timeout := 5 }
  match r with
  | .response status => (req, status == 200)
  | .connectionError => (req, false)
  | .timeout => (req, false)

/-- The JSON payload of a `/humanize` request (benchmark.py lines 45-49).
The structure has exactly the three keys the script puts in the dict. -/
structure Payload where
  text : String
  paraphrasing : Bool
  enhanced : Bool
deriving Repr, DecidableEq

/-- The POST request issued by `benchmark_humanization`. -/
structure HumRequest where
  url : String
  payload : Payload
  timeout : ℚ
deriving Repr, DecidableEq

/-- `HumanizerBenchmark.benchmark_humanization` (benchmark.py lines 43-72):
builds the payload, POSTs to `{base_url}/humanize` with a 60-second
timeout, and maps the outcome to `(elapsed, statistics)`:
on a 200 response whose body parses, `(elapsed, data.get("statistics", {}))`;
on a 200 response whose body fails to parse, `response.json()` raises and
the broad `except Exception` returns `(0.0, {})`;
on any other status, `(elapsed, {})`;
on `requests.Timeout`, `(60.0, {})`; on any other exception, `(0.0, {})`.
The issued request is returned alongside the result. -/
def benchmark_humanization (base_url text : String) (enhanced : Bool)
    (out : HttpResult) : HumRequest × ℚ × Stats :=
  let payload : Payload := { text := text, paraphrasing := true, enhanced := enhanced }
  let req : HumRequest := { url := base_url ++ "/humanize", payload := payload, timeout := 60 }
  match out with
  | .response status jsonBody elapsed =>
      if status = 200 then
        match jsonBody with
        | some data => (req, elapsed, data.statistics.getD [])
        | none => (req, 0, [])
      else
        (req, elapsed, [])
  | .timeout => (req, 60, [])
  | .transportError => (req, 0, [])

/-- One entry of `self.results` (benchmark.py lines 119-124). -/
structure BenchResult where
  size : String
  length : Nat
  fast_mode : ℚ
  enhanced_mode : ℚ
deriving Repr, DecidableEq

/-- The loop body of `run_benchmark` (benchmark.py lines 89-124): for each
input, call `benchmark_humanization` first with `enhanced=False`, then with
`enhanced=True`, and append one result record.  `env` gives the outcome of
each HTTP call, keyed by the input label and the mode flag.  Returns the
result records and the trace of issued requests, both in issue order. -/
def runLoop (base_url : String) (env : String → Bool → HttpResult) :
    List (String × String) → List BenchResult × List HumRequest
  | [] => ([], [])
  | p :: rest =>
      let fastCall := benchmark_humanization base_url p.2 false (env p.1 false)
      let enhCall := benchmark_humanization base_url p.2 true (env p.1 true)
      let record : BenchResult :=
        { size := p.1, length := p.2.length,
          fast_mode := fastCall.2.1, enhanced_mode := enhCall.2.1 }
      let restOut := runLoop base_url env rest
      (record :: restOut.1, fastCall.1 :: enhCall.1 :: restOut.2)

/-- One row of the summary table (benchmark.py lines 138-143). -/
structure SummaryRow where
  size : String
  length : Nat
  fast : ℚ
  enhanced : ℚ
  speedup : ℚ
deriving Repr, DecidableEq, Inhabited

/-- The numeric content of the benchmark summary. -/
structure Summary where
  rows : List SummaryRow
  total_fast : ℚ
  total_enhanced : ℚ
  avg_speedup : ℚ
deriving Repr, DecidableEq

/-- `HumanizerBenchmark.print_summary` (benchmark.py lines 129-157), as the
numeric computation underlying the printed report: one row per result with
`speedup = enhanced / fast if fast > 0 else 1` (line 141), the column
totals (lines 146-147), and `avg_speedup = total_enhanced / total_fast if
total_fast > 0 else 1` (line 148). -/
def print_summary (results : List BenchResult) : Summary :=
  { rows := results.map fun (r : BenchResult) =>
      { size := r.size, length := r.length,
        fast := r.fast_mode, enhanced := r.enhanced_mode,
        speedup := if r.fast_mode > 0 then r.enhanced_mode / r.fast_mode else 1 },
    total_fast := (results.map fun (r : BenchResult) => r.fast_mode).sum,
    total_enhanced := (results.map fun (r : BenchResult) => r.enhanced_mode).sum,
    avg_speedup :=
      if (results.map fun (r : BenchResult) => r.fast_mode).sum > 0 then
        (results.map fun (r : BenchResult) => r.enhanced_mode).sum /
          (results.map fun (r : BenchResult) => r.fast_mode).sum
      else 1 }

/-- The observable outcome of one invocation of `run_benchmark`:
the final `self.results`, the trace of `/humanize` requests issued, and
the computed summary (`none` when `print_summary` was never reached). -/
structure RunOutput where
  results : List BenchResult
  requests : List HumRequest
  summary : Option Summary
deriving Repr, DecidableEq

/-- `HumanizerBenchmark.run_benchmark` (benchmark.py lines 74-127): if
`check_server` fails, return with `self.results` still empty, no request
issued and no summary; otherwise run the measurement loop over the inputs
and compute the summary of the collected results. -/
def run_benchmark (base_url : String) (health : HealthResult)
    (env : String → Bool → HttpResult) (inputs : List (String × String)) : RunOutput :=
  if (check_server base_url health).2 then
    let out := runLoop base_url env inputs
    { results := out.1, requests := out.2, summary := some (print_summary out.1) }
  else
    { results := [], requests := [], summary := none }

/-! ## Helper lemmas -/

/-- Auxiliary: zipping a list with its image under a map pairs each element
with its image. -/
theorem zip_self_map {α β : Type} (f : α → β) :
    ∀ (l : List α) (p : α × β), p ∈ l.zip (l.map f) → p.2 = f p.1 := by
  intro l
  induction l with
  | nil => intro p hp; simp at hp
  | cons a t ih =>
      intro p hp
      simp only [List.map_cons, List.zip_cons_cons, List.mem_cons] at hp
      rcases hp with h | h
      · subst h; rfl
      · exact ih p h

/-- Auxiliary: the request built by `benchmark_humanization` does not depend
on the call outcome. -/
theorem bh_request (base_url text : String) (enhanced : Bool) (out : HttpResult) :
    (benchmark_humanization base_url text enhanced out).1 =
      { url := base_url ++ "/humanize",
        payload := { text := text, paraphrasing := true, enhanced := enhanced },
        timeout := 60 } := by
  cases out with
  | response status jsonBody elapsed =>
      by_cases h : status = 200
      · cases jsonBody <;> simp [benchmark_humanization, h]
      · simp [benchmark_humanization, h]
  | timeout => rfl
  | transportError => rfl

/-- Auxiliary: the results component of the measurement loop is the map of
the record builder over the inputs. -/
theorem runLoop_results (base_url : String) (env : String → Bool → HttpResult) :
    ∀ (inputs : List (String × String)),
      (runLoop base_url env inputs).1 = inputs.map fun p =>
        { size := p.1, length := p.2.length,
          fast_mode := (benchmark_humanization base_url p.2 false (env p.1 false)).2.1,
          enhanced_mode := (benchmark_humanization base_url p.2 true (env p.1 true)).2.1 } := by
  intro inputs
  induction inputs with
  | nil => rfl
  | cons p t ih => simp [runLoop, ih]

/-- Auxiliary: the request trace of the measurement loop is, per input, the
fast-mode request followed by the enhanced-mode request. -/
theorem runLoop_requests (base_url : String) (env : String → Bool → HttpResult) :
    ∀ (inputs : List (String × String)),
      (runLoop base_url env inputs).2 = inputs.flatMap fun p =>
        [{ url := base_url ++ "/humanize",
           payload := { text := p.2, paraphrasing := true, enhanced := false },
           timeout := 60 },
         { url := base_url ++ "/humanize",
           payload := { text := p.2, paraphrasing := true, enhanced := true },
           timeout := 60 }] := by
  intro inputs
  induction inputs with
  | nil => rfl
  | cons p t ih => simp [runLoop, ih, bh_request]

/-- Auxiliary: if every `response` outcome carries an elapsed time in
`[0, 60]`, then the elapsed time recorded by `benchmark_humanization` is in
`[0, 60]`. -/
theorem bh_elapsed_bounds (base_url text : String) (enhanced : Bool) (out : HttpResult)
    (h : ∀ (status : Nat) (jsonBody : Option RespBody) (elapsed : ℚ),
        out = .response status jsonBody elapsed → 0 ≤ elapsed ∧ elapsed ≤ 60) :
    0 ≤ (benchmark_humanization base_url text enhanced out).2.1 ∧
    (benchmark_humanization base_url text enhanced out).2.1 ≤ 60 := by
  cases out with
  | response status jsonBody elapsed =>
      have hb := h status jsonBody elapsed rfl
      by_cases h2 : status = 200
      · cases jsonBody with
        | none => norm_num [benchmark_humanization, h2]
        | some data => simpa [benchmark_humanization, h2] using hb
      · simpa [benchmark_humanization, h2] using hb
  | timeout => norm_num [benchmark_humanization]
  | transportError => norm_num [benchmark_humanization]

/-- Auxiliary: propagation of the elapsed-time bounds through the
measurement loop. -/
theorem runLoop_elapsed_bounds (base_url : String) (env : String → Bool → HttpResult)
    (henv : ∀ (name : String) (mode : Bool) (status : Nat) (jsonBody : Option RespBody)
        (elapsed : ℚ),
        env name mode = .response status jsonBody elapsed → 0 ≤ elapsed ∧ elapsed ≤ 60) :
    ∀ (inputs : List (String × String)) (r : BenchResult), r ∈ (runLoop base_url env inputs).1 →
      0 ≤ r.fast_mode ∧ r.fast_mode ≤ 60 ∧ 0 ≤ r.enhanced_mode ∧ r.enhanced_mode ≤ 60 := by
  intro inputs
  induction inputs with
  | nil => intro r hr; simp [runLoop] at hr
  | cons p t ih =>
      intro r hr
      simp only [runLoop, List.mem_cons] at hr
      rcases hr with h | h
      · subst h
        have hf := bh_elapsed_bounds base_url p.2 false (env p.1 false)
          (fun s b e he => henv p.1 false s b e he)
        have hen := bh_elapsed_bounds base_url p.2 true (env p.1 true)
          (fun s b e he => henv p.1 true s b e he)
        exact ⟨hf.1, hf.2, hen.1, hen.2⟩
      · exact ih r h

/-! ## Claim theorems -/

/-- Claim C1: for every row of the summary, the per-row speedup equals the
enhanced-mode elapsed time divided by the fast-mode elapsed time when the
fast-mode elapsed time is strictly positive, and equals 1 otherwise; on an
input set where every elapsed time is 0 the summary is still computed (the
computation is total, so no division error is raised) and every row's
speedup is 1. -/
theorem per_row_speedup_spec (results : List BenchResult) :
    (∀ p ∈ results.zip (print_summary results).rows,
        (0 < p.1.fast_mode → p.2.speedup = p.1.enhanced_mode / p.1.fast_mode) ∧
        (¬ 0 < p.1.fast_mode → p.2.speedup = 1)) ∧
    ((∀ r ∈ results, r.fast_mode = 0 ∧ r.enhanced_mode = 0) →
        (print_summary results).rows.length = results.length ∧
        ∀ row ∈ (print_summary results).rows, row.speedup = 1) := by
  constructor
  · intro p hp
    have h2 := zip_self_map
      (fun (r : BenchResult) =>
        ({ size := r.size, length := r.length, fast := r.fast_mode,
           enhanced := r.enhanced_mode,
           speedup := if r.fast_mode > 0 then r.enhanced_mode / r.fast_mode else 1 } :
          SummaryRow))
      results p hp
    constructor
    · intro hpos
      rw [h2]
      simp [hpos]
    · intro hneg
      rw [h2]
      simp [hneg]
  · intro hz
    constructor
    · simp [print_summary]
    · intro row hrow
      simp only [print_summary, List.mem_map] at hrow
      obtain ⟨r, hr, hrr⟩ := hrow
      have hz0 := (hz r hr).1
      subst hrr
      simp [hz0]

/-- Witness for C1 at the all-zero singleton input set. -/
theorem per_row_speedup_spec_witness :
    (print_summary [{ size := "short", length := 3, fast_mode := 0, enhanced_mode := 0 }]).rows.length = 1 ∧
    ((print_summary [{ size := "short", length := 3, fast_mode := 0, enhanced_mode := 0 }]).rows.headI).speedup = 1 := by
  have h := (per_row_speedup_spec
    [{ size := "short", length := 3, fast_mode := 0, enhanced_mode := 0 }]).2
    (by intro r hr; simp at hr; simp [hr])
  refine ⟨h.1, h.2 _ ?_⟩
  simp [print_summary]

/-- Claim C2: the summary's fast total is the sum of the fast-mode elapsed
times over all records, the enhanced total is the sum of the enhanced-mode
elapsed times, and the overall speedup is the enhanced total divided by the
fast total when the fast total is strictly positive, and 1 otherwise. -/
theorem summary_totals_spec (results : List BenchResult) :
    (print_summary results).total_fast =
        (results.map fun (r : BenchResult) => r.fast_mode).sum ∧
    (print_summary results).total_enhanced =
        (results.map fun (r : BenchResult) => r.enhanced_mode).sum ∧
    (0 < (results.map fun (r : BenchResult) => r.fast_mode).sum →
        (print_summary results).avg_speedup =
          (results.map fun (r : BenchResult) => r.enhanced_mode).sum /
            (results.map fun (r : BenchResult) => r.fast_mode).sum) ∧
    (¬ 0 < (results.map fun (r : BenchResult) => r.fast_mode).sum →
        (print_summary results).avg_speedup = 1) := by
  refine ⟨rfl, rfl, ?_, ?_⟩
  · intro h
    simp [print_summary, h]
  · intro h
    simp [print_summary, h]

/-- Witness for C2 at a one-record input with fast time 1 and enhanced
time 2. -/
theorem summary_totals_spec_witness :
    (print_summary [{ size := "short", length := 3, fast_mode := 1, enhanced_mode := 2 }]).avg_speedup =
      (([{ size := "short", length := 3, fast_mode := 1, enhanced_mode := 2 }] :
          List BenchResult).map fun (r : BenchResult) => r.enhanced_mode).sum /
      (([{ size := "short", length := 3, fast_mode := 1, enhanced_mode := 2 }] :
          List BenchResult).map fun (r : BenchResult) => r.fast_mode).sum := by
  exact (summary_totals_spec
    [{ size := "short", length := 3, fast_mode := 1, enhanced_mode := 2 }]).2.2.1
    (by norm_num)

/-- Claim C3: the timed transformation call is a total function of the call
outcome: a 200 response with a parseable body yields the measured elapsed
time paired with the parsed statistics mapping (empty when absent); a
response with any other status yields the measured elapsed time paired with
the empty mapping; a timeout yields the ceiling value 60 paired with the
empty mapping; any other transport failure yields 0 paired with the empty
mapping. -/
theorem timed_call_outcomes (base_url text : String) (enhanced : Bool) :
    (∀ (elapsed : ℚ) (data : RespBody),
        (benchmark_humanization base_url text enhanced
            (.response 200 (some data) elapsed)).2 = (elapsed, data.statistics.getD [])) ∧
    (∀ (status : Nat) (jsonBody : Option RespBody) (elapsed : ℚ), status ≠ 200 →
        (benchmark_humanization base_url text enhanced
            (.response status jsonBody elapsed)).2 = (elapsed, ([] : Stats))) ∧
    (benchmark_humanization base_url text enhanced .timeout).2 = ((60 : ℚ), ([] : Stats)) ∧
    (benchmark_humanization base_url text enhanced .transportError).2 = ((0 : ℚ), ([] : Stats)) := by
  refine ⟨?_, ?_, rfl, rfl⟩
  · intro elapsed data
    rfl
  · intro status jsonBody elapsed h
    cases jsonBody <;> simp [benchmark_humanization, h]

/-- Witness for C3 at a 404 response. -/
theorem timed_call_outcomes_witness :
    (benchmark_humanization "http://localhost:5000" "abc" false
        (.response 404 none (3 : ℚ))).2 = ((3 : ℚ), ([] : Stats)) := by
  exact (timed_call_outcomes "http://localhost:5000" "abc" false).2.1 404 none 3 (by decide)

/-- Claim C6: the availability prober is a total boolean function of the
health-call outcome: true exactly on a status-200 response, false on any
other status, on connection failure and on timeout; the issued request is a
GET of `{base_url}/health` with a 5-second timeout. -/
theorem check_server_spec (base_url : String) :
    ((check_server base_url (.response 200)).2 = true) ∧
    (∀ (status : Nat), status ≠ 200 → (check_server base_url (.response status)).2 = false) ∧
    ((check_server base_url .connectionError).2 = false) ∧
    ((check_server base_url .timeout).2 = false) ∧
    (∀ (r : HealthResult), (check_server base_url r).1 =
        { url := base_url ++ "/health", timeout := 5 }) := by
  refine ⟨rfl, ?_, rfl, rfl, ?_⟩
  · intro status h
    simp [check_server, h]
  · intro r
    cases r <;> rfl

/-- Witness for C6 at a 503 response. -/
theorem check_server_spec_witness :
    (check_server "http://localhost:5000" (.response 503)).2 = false := by
  exact (check_server_spec "http://localhost:5000").2.1 503 (by decide)

/-- Claim C9: a 200 response whose body cannot be parsed as JSON does not
follow the success path: the call returns elapsed 0 with an empty
statistics mapping — the same Run Result as a transport failure — whatever
the actually measured elapsed time was. -/
theorem unparseable_success_body (base_url text : String) (enhanced : Bool) (elapsed : ℚ) :
    (benchmark_humanization base_url text enhanced
        (.response 200 none elapsed)).2 = ((0 : ℚ), ([] : Stats)) ∧
    (benchmark_humanization base_url text enhanced (.response 200 none elapsed)).2 =
      (benchmark_humanization base_url text enhanced .transportError).2 :=
  ⟨rfl, rfl⟩

/-- Claim C10: a 200 response whose parsed JSON body lacks a `"statistics"`
key still succeeds, returning the measured elapsed time paired with the
empty statistics mapping. -/
theorem missing_statistics_key (base_url text : String) (enhanced : Bool) (elapsed : ℚ)
    (data : RespBody) (h : data.statistics = none) :
    (benchmark_humanization base_url text enhanced
        (.response 200 (some data) elapsed)).2 = (elapsed, ([] : Stats)) := by
  simp [benchmark_humanization, h]

/-- Witness for C10 at a body with no statistics key. -/
theorem missing_statistics_key_witness :
    (benchmark_humanization "http://localhost:5000" "abc" true
        (.response 200 (some { statistics := none }) (2 : ℚ))).2 = ((2 : ℚ), ([] : Stats)) := by
  exact missing_statistics_key "http://localhost:5000" "abc" true 2 { statistics := none } rfl

/-- Claim C4: when every raw response outcome supplied by the environment
carries a measured elapsed time in `[0, 60]` (as enforced by the 60-second
request timeout), every record of a run has both elapsed times at least 0
and at most the 60-second timeout ceiling. -/
theorem record_elapsed_bounds (base_url : String) (health : HealthResult)
    (env : String → Bool → HttpResult) (inputs : List (String × String))
    (henv : ∀ (name : String) (mode : Bool) (status : Nat) (jsonBody : Option RespBody)
        (elapsed : ℚ),
        env name mode = .response status jsonBody elapsed → 0 ≤ elapsed ∧ elapsed ≤ 60) :
    ∀ r ∈ (run_benchmark base_url health env inputs).results,
      0 ≤ r.fast_mode ∧ r.fast_mode ≤ 60 ∧ 0 ≤ r.enhanced_mode ∧ r.enhanced_mode ≤ 60 := by
  intro r hr
  cases hgate : (check_server base_url health).2 with
  | false => simp [run_benchmark, hgate] at hr
  | true =>
      simp only [run_benchmark, hgate, if_true] at hr
      exact runLoop_elapsed_bounds base_url env henv inputs r hr

/-- Witness for C4 at a run whose calls all fail with a transport error. -/
theorem record_elapsed_bounds_witness :
    0 ≤ ({ size := "short", length := 3, fast_mode := 0, enhanced_mode := 0 } :
        BenchResult).fast_mode ∧
    ({ size := "short", length := 3, fast_mode := 0, enhanced_mode := 0 } :
        BenchResult).fast_mode ≤ 60 ∧
    0 ≤ ({ size := "short", length := 3, fast_mode := 0, enhanced_mode := 0 } :
        BenchResult).enhanced_mode ∧
    ({ size := "short", length := 3, fast_mode := 0, enhanced_mode := 0 } :
        BenchResult).enhanced_mode ≤ 60 := by
  exact record_elapsed_bounds "http://localhost:5000" (.response 200)
    (fun _ _ => .transportError) [("short", "abc")]
    (by intro name mode status jsonBody elapsed h; exact HttpResult.noConfusion h)
    { size := "short", length := 3, fast_mode := 0, enhanced_mode := 0 }
    (by simp [run_benchmark, runLoop, benchmark_humanization, check_server]; decide)

/-- Claim C5: for every non-empty input sequence, a run that passes the
availability check produces exactly one record per input, in input order,
carrying the input's label, its character length, and the two modes'
elapsed times. -/
theorem run_benchmark_results_spec (base_url : String) (health : HealthResult)
    (env : String → Bool → HttpResult) (inputs : List (String × String))
    (_hne : inputs ≠ []) (hok : (check_server base_url health).2 = true) :
    (run_benchmark base_url health env inputs).results =
      inputs.map fun p =>
        ({ size := p.1, length := p.2.length,
           fast_mode := (benchmark_humanization base_url p.2 false (env p.1 false)).2.1,
           enhanced_mode := (benchmark_humanization base_url p.2 true (env p.1 true)).2.1 } :
          BenchResult) := by
  simp only [run_benchmark, hok, if_true]
  exact runLoop_results base_url env inputs

/-- Witness for C5 at a single input whose calls both time out. -/
theorem run_benchmark_results_spec_witness :
    (run_benchmark "http://localhost:5000" (.response 200) (fun _ _ => .timeout)
        [("short", "abc")]).results =
      [{ size := "short", length := 3, fast_mode := 60, enhanced_mode := 60 }] := by
  have h := run_benchmark_results_spec "http://localhost:5000" (.response 200)
    (fun _ _ => .timeout) [("short", "abc")] (by simp) rfl
  rw [h]
  rfl

/-- Claim C7: whenever the availability check returns false, the run issues
no transformation request, appends no record (the result sequence stays
empty) and computes no summary. -/
theorem gate_blocks_runner (base_url : String) (health : HealthResult)
    (env : String → Bool → HttpResult) (inputs : List (String × String))
    (h : (check_server base_url health).2 = false) :
    (run_benchmark base_url health env inputs).results = [] ∧
    (run_benchmark base_url health env inputs).requests = [] ∧
    (run_benchmark base_url health env inputs).summary = none := by
  refine ⟨?_, ?_, ?_⟩ <;> simp [run_benchmark, h]

/-- Witness for C7 at a connection failure of the health check. -/
theorem gate_blocks_runner_witness :
    (run_benchmark "http://localhost:5000" .connectionError
        (fun _ _ => .timeout) [("short", "abc")]).results = [] ∧
    (run_benchmark "http://localhost:5000" .connectionError
        (fun _ _ => .timeout) [("short", "abc")]).requests = [] ∧
    (run_benchmark "http://localhost:5000" .connectionError
        (fun _ _ => .timeout) [("short", "abc")]).summary = none := by
  exact gate_blocks_runner "http://localhost:5000" .connectionError
    (fun _ _ => .timeout) [("short", "abc")] rfl

/-- Claim C8: every transformation call of a run POSTs to
`{base_url}/humanize` with a JSON body holding exactly the keys `text` (the
sample body), `paraphrasing` set to true and `enhanced` set to the mode
flag, under a 60-second request timeout; per input the fast-mode request
(flag false) precedes the enhanced-mode request (flag true). -/
theorem requests_shape_spec (base_url : String) (health : HealthResult)
    (env : String → Bool → HttpResult) (inputs : List (String × String))
    (hok : (check_server base_url health).2 = true) :
    (run_benchmark base_url health env inputs).requests =
      inputs.flatMap fun p =>
        [({ url := base_url ++ "/humanize",
            payload := { text := p.2, paraphrasing := true, enhanced := false },
            timeout := 60 } : HumRequest),
         { url := base_url ++ "/humanize",
           payload := { text := p.2, paraphrasing := true, enhanced := true },
           timeout := 60 }] := by
  simp only [run_benchmark, hok, if_true]
  exact runLoop_requests base_url env inputs

/-- Witness for C8 at a single input. -/
theorem requests_shape_spec_witness :
    (run_benchmark "http://localhost:5000" (.response 200) (fun _ _ => .transportError)
        [("short", "abc")]).requests =
      [{ url := "http://localhost:5000/humanize",
         payload := { text := "abc", paraphrasing := true, enhanced := false },
         timeout := 60 },
       { url := "http://localhost:5000/humanize",
         payload := { text := "abc", paraphrasing := true, enhanced := true },
         timeout := 60 }] := by
  have h := requests_shape_spec "http://localhost:5000" (.response 200)
    (fun _ _ => .transportError) [("short", "abc")] rfl
  rw [h]
  rfl

end Humanizer
